import Mathlib

/-!
Verification development for the Support-List client.

The definitions below are a shallow embedding of the repository's core:
the data model (`src/src/lib/types.ts`), the snapshot codec and the
per-item encryption envelope (`src/unnamed/part_001`, the extended
`supportListUtils.ts`), and the reconciliation / publish pipeline
(`src/src/pages/ListView.tsx`).  JavaScript strings are modelled as
`List Char`; a possibly-`undefined` value is an `Option`; an operation
of an external library that may throw is a function into `Option`.
-/

/-- JavaScript strings, modelled as lists of characters. -/
abbrev Str := List Char

/-- The on-wire marker of an encrypted title: `ENCRYPTED_PREFIX = 'ENC:'`. -/
def ENCRYPTED_PREFIX : Str := ['E', 'N', 'C', ':']

/-- The `status` field of a todo item (`types.ts`). -/
inductive Status where
  | pending
  | claimed
  | complete
deriving DecidableEq

/-- `TodoItem` (`types.ts`).  Optional fields are `Option`s, `none`
modelling `undefined`. -/
structure TodoItem where
  id : Str
  title : Str
  status : Status
  claimedBy : Option Str := none
  note : Option Str := none
  order : Int
  encrypted : Option Bool := none
deriving DecidableEq

/-- `SupportList` (`types.ts`), as produced by `parseListContent`.
`guestPubkey` may be absent on the wire; the absent case is modelled by
the empty string, which is what every guard in the source tests for. -/
structure SupportList where
  id : Str
  title : Str
  items : List TodoItem
  ownerPubkey : Str
  guestPubkey : Str
  createdAt : Int
  updatedAt : Int
deriving DecidableEq

/-- The fields of a kind-30078 event's JSON content after `JSON.parse`
but before the defaulting done by `parseListContent`.  A `none` field
models a missing JSON key. -/
structure RawContent where
  title : Option Str := none
  items : Option (List TodoItem) := none
  ownerPubkey : Option Str := none
  guestPubkey : Option Str := none
  createdAt : Int := 0
  updatedAt : Int := 0
deriving DecidableEq

/-- A nostr event as consumed by `loadList`.  Since `JSON.parse` is
deterministic, `content` carries the parse result directly; `none`
models unparseable JSON. -/
structure NostrEvent where
  pubkey : Str
  created_at : Int
  content : Option RawContent
deriving DecidableEq

/-- `LIST_D_TAG = 'support-list'`. -/
def LIST_D_TAG : Str := ['s','u','p','p','o','r','t','-','l','i','s','t']

/-- Default list title used by `parseListContent`. -/
def defaultListTitle : Str := ['S','u','p','p','o','r','t',' ','L','i','s','t']

/-- JavaScript truthiness of a possibly-undefined string:
`undefined` and `''` are falsy. -/
def jsTruthy : Option Str → Bool
  | none => false
  | some s => !s.isEmpty

/-- JavaScript `v || d` on a possibly-undefined string field. -/
def jsOrStr (v : Option Str) (d : Str) : Str :=
  match v with
  | none => d
  | some s => if s.isEmpty then d else s

/-- `parseListContent` (`supportListUtils.ts`): applies the defaults for
`title`, `items` and `ownerPubkey`; returns `none` on a JSON parse
error. -/
def parseListContent (content : Option RawContent) (fallbackOwnerPubkey : Str) :
    Option SupportList :=
  match content with
  | none => none
  | some data => some
      { id := LIST_D_TAG
        title := jsOrStr data.title defaultListTitle
        items := data.items.getD []
        ownerPubkey := jsOrStr data.ownerPubkey fallbackOwnerPubkey
        guestPubkey := data.guestPubkey.getD []
        createdAt := data.createdAt
        updatedAt := data.updatedAt }

/-- The plaintext payload `{title, note, claimedBy}` embedded in an
encrypted title. -/
structure Payload where
  title : Str
  note : Option Str := none
  claimedBy : Option Str := none
deriving DecidableEq

/-- The opaque cryptographic and JSON primitives used by the encryption
envelope: nip44 conversation-key derivation, nip44 encrypt/decrypt, and
the JSON codec of the payload.  A `none` result models a thrown
exception or a failed parse.  Private keys are identified with their
hex encoding, so `Buffer.from(k).toString('hex')` disappears. -/
structure CryptoPrims where
  getConversationKey : Str → Str → Option Str
  enc : Str → Str → Option Str
  dec : Str → Str → Option Str
  stringifyPayload : Payload → Str
  parsePayload : Str → Option Payload

/-- The body of the `try` block of `encryptItemData`: conversation-key
derivation followed by nip44 encryption of the serialized payload. -/
def encryptAttempt (C : CryptoPrims) (payload : Payload)
    (senderPrivKey recipientPubkey : Str) : Option Str :=
  match C.getConversationKey senderPrivKey recipientPubkey with
  | none => none
  | some conversationKey => C.enc (C.stringifyPayload payload) conversationKey

/-- `encryptItemData` (`part_001`, lines 93-131). -/
def encryptItemData (C : CryptoPrims) (item : TodoItem)
    (senderPrivKey recipientPubkey : Str) : TodoItem :=
  if ENCRYPTED_PREFIX.isPrefixOf item.title then item
  else
    match encryptAttempt C
        { title := item.title, note := item.note, claimedBy := item.claimedBy }
        senderPrivKey recipientPubkey with
    | some encrypted =>
        { id := item.id
          title := ENCRYPTED_PREFIX ++ encrypted
          status := item.status
          order := item.order
          claimedBy := none
          note := none
          encrypted := some true }
    | none => { item with encrypted := some false }

/-- The placeholder title installed when decryption fails. -/
def decryptFailedTitle : Str :=
  ['[','E','n','c','r','y','p','t','e','d',' ','-',' ','U','n','a','b','l','e',
   ' ','t','o',' ','d','e','c','r','y','p','t',']']

/-- The body of the `try` block of `decryptItemData`: conversation-key
derivation, nip44 decryption, then parsing of the embedded payload. -/
def decryptAttempt (C : CryptoPrims) (encryptedData : Str)
    (privateKey senderPubkey : Str) : Option Payload :=
  match C.getConversationKey privateKey senderPubkey with
  | none => none
  | some conversationKey =>
    match C.dec encryptedData conversationKey with
    | none => none
    | some decrypted => C.parsePayload decrypted

/-- `decryptItemData` (`part_001`, lines 137-174). -/
def decryptItemData (C : CryptoPrims) (item : TodoItem)
    (privateKey senderPubkey : Str) : TodoItem :=
  if ENCRYPTED_PREFIX.isPrefixOf item.title then
    match decryptAttempt C (item.title.drop ENCRYPTED_PREFIX.length)
        privateKey senderPubkey with
    | some payload =>
        { item with
            title := payload.title
            note := payload.note
            claimedBy := payload.claimedBy
            encrypted := some true }
    | none => { item with title := decryptFailedTitle }
  else { item with encrypted := some false }

/-- One iteration of the merge loop of `loadList` (`ListView.tsx`,
lines 137-145).  The running state is `(bestStatus, bestNote,
bestClaimedBy)`; the iteration looks this item up in one event's
decrypted items.  Since `status` is a non-empty string for every value
of the `Status` enum, the JavaScript guard `eventItem.status &&` is
always true and only the `!== 'pending'` test remains. -/
def mergeStep (ownerId : Str) (best : Status × Option Str × Option Str)
    (ev : Int × List TodoItem) : Status × Option Str × Option Str :=
  match (ev.2).find? (fun ei => ei.id == ownerId) with
  | none => best
  | some eventItem =>
      ( if eventItem.status ≠ Status.pending then eventItem.status else best.1
      , if !jsTruthy best.2.1 && jsTruthy eventItem.note then eventItem.note
        else best.2.1
      , if !jsTruthy best.2.2 && jsTruthy eventItem.claimedBy then
          eventItem.claimedBy
        else best.2.2 )

/-- The per-item merge of `loadList` (`ListView.tsx`, lines 131-153):
start from the authoritative owner item's own field values and fold the
newest-first list of `(timestamp, decrypted items)` pairs. -/
def mergeItem (allDecryptedEvents : List (Int × List TodoItem))
    (ownerItem : TodoItem) : TodoItem :=
  let best := allDecryptedEvents.foldl (mergeStep ownerItem.id)
    (ownerItem.status, ownerItem.note, ownerItem.claimedBy)
  { ownerItem with status := best.1, note := best.2.1, claimedBy := best.2.2 }

/-- Insertion into a list sorted descending by `created_at`, keeping
earlier elements first on ties.  Together with `sortByCreatedAtDesc`
this models the stable JavaScript sort
`events.sort((a, b) => b.created_at - a.created_at)`. -/
def insertDesc (e : NostrEvent) : List NostrEvent → List NostrEvent
  | [] => [e]
  | f :: rest =>
      if f.created_at > e.created_at then f :: insertDesc e rest
      else e :: f :: rest

/-- Stable sort of the fetched events, newest first. -/
def sortByCreatedAtDesc : List NostrEvent → List NostrEvent
  | [] => []
  | e :: rest => insertDesc e (sortByCreatedAtDesc rest)

/-- The error surfaced when no usable owner event exists. -/
def notFoundError : String :=
  "No list found. The owner may not have created the list yet."

/-- The error surfaced when the newest owner event fails to parse. -/
def parseFailedError : String := "Failed to parse list data."

/-- The owner-event test used to partition events (`ListView.tsx`,
lines 87-90): the event parses and its signer equals the parsed
snapshot's `ownerPubkey` (which falls back to the signer itself when
the snapshot declares none). -/
def isOwnerEvent (e : NostrEvent) : Bool :=
  match parseListContent e.content e.pubkey with
  | some parsed => e.pubkey == parsed.ownerPubkey
  | none => false

/-- The reconciliation pipeline of `loadList` (`ListView.tsx`, lines
62-170), from the fetched events to the merged list or the surfaced
error message. -/
def loadList (C : CryptoPrims) (guestPrivateKey : Option Str)
    (events : List NostrEvent) : Except String SupportList :=
  if events.length = 0 then .error notFoundError
  else
    let sortedEvents := sortByCreatedAtDesc events
    let ownerEvents := sortedEvents.filter isOwnerEvent
    match ownerEvents with
    | [] => .error notFoundError
    | latestOwnerEvent :: _ =>
      match parseListContent latestOwnerEvent.content latestOwnerEvent.pubkey with
      | none => .error parseFailedError
      | some ownerList =>
        let allDecryptedEvents : List (Int × List TodoItem) :=
          sortedEvents.filterMap fun event =>
            match parseListContent event.content latestOwnerEvent.pubkey with
            | none => none
            | some eventList =>
              let decryptedItems :=
                match guestPrivateKey with
                | some gk =>
                  if !eventList.ownerPubkey.isEmpty then
                    eventList.items.map fun it =>
                      decryptItemData C it gk eventList.ownerPubkey
                  else eventList.items
                | none => eventList.items
              some (event.created_at, decryptedItems)
        let mergedItems := ownerList.items.map (mergeItem allDecryptedEvents)
        match guestPrivateKey with
        | some gk =>
          if !ownerList.ownerPubkey.isEmpty then
            .ok { ownerList with
                    items := mergedItems.map fun it =>
                      decryptItemData C it gk ownerList.ownerPubkey }
          else .ok { ownerList with items := mergedItems }
        | none => .ok { ownerList with items := mergedItems }

/-- The error thrown by `saveList` when the publish fails. -/
def saveFailedError : String := "Failed to save list. Please try again."

/-- The recipient pubkey chosen by `saveList`: "the other participant"
relative to the sender. -/
def recipientOf (pubOf : Str → Str) (pk : Str) (updatedList : SupportList) : Str :=
  if pubOf pk == updatedList.ownerPubkey then updatedList.guestPubkey
  else updatedList.ownerPubkey

/-- The outgoing snapshot `listToSave` built by `saveList`: the updated
list with every item encrypted against the recipient. -/
def listToSave (C : CryptoPrims) (pk recipientPubkey : Str)
    (updatedList : SupportList) : SupportList :=
  { updatedList with
      items := updatedList.items.map fun item =>
        encryptItemData C item pk recipientPubkey }

/-- The in-memory state installed by `saveList` after a successful
publish: the updated list with decrypted items but the encrypted flags
of their storage forms. -/
def stateAfterSave (C : CryptoPrims) (pk recipientPubkey : Str)
    (updatedList : SupportList) : SupportList :=
  { updatedList with
      items := updatedList.items.map fun item =>
        { item with
            encrypted := (encryptItemData C item pk recipientPubkey).encrypted } }

/-- `saveList` (`ListView.tsx`, lines 193-250).  `pubOf` models
`getPublicKey`, and `publish` models `nostr.event`, telling whether the
publish of the given outgoing snapshot succeeds.  The result is the
in-memory list state after the call together with the error thrown, if
any. -/
def saveList (C : CryptoPrims) (pubOf : Str → Str) (publish : SupportList → Bool)
    (guestPrivateKey ownerPrivateKey : Option Str) (guestPubkey : Option Str)
    (list : Option SupportList) (updatedList : SupportList)
    (useGuestKey : Bool) : Option SupportList × Option String :=
  let privateKey := if useGuestKey then guestPrivateKey else ownerPrivateKey
  match privateKey, guestPubkey with
  | some pk, some _ =>
    if updatedList.ownerPubkey.isEmpty then (list, none)
    else
      let recipientPubkey := recipientOf pubOf pk updatedList
      if publish (listToSave C pk recipientPubkey updatedList) then
        (some (stateAfterSave C pk recipientPubkey updatedList), none)
      else (list, some saveFailedError)
  | _, _ => (list, none)

/-- A `Partial<TodoItem>` as passed to `handleUpdateItem`, applied by
shallow spread.  `some none` models a property explicitly present with
value `undefined`. -/
structure ItemUpdates where
  id : Option Str := none
  title : Option Str := none
  status : Option Status := none
  claimedBy : Option (Option Str) := none
  note : Option (Option Str) := none
  order : Option Int := none
  encrypted : Option (Option Bool) := none
deriving DecidableEq

/-- The spread `{...item, ...updates}` of `handleUpdateItem`. -/
def applyUpdates (item : TodoItem) (u : ItemUpdates) : TodoItem :=
  { id := u.id.getD item.id
    title := u.title.getD item.title
    status := u.status.getD item.status
    claimedBy := u.claimedBy.getD item.claimedBy
    note := u.note.getD item.note
    order := u.order.getD item.order
    encrypted := u.encrypted.getD item.encrypted }

/-- The four local mutations of `ListView.tsx`. `newId` stands for the
fresh `generateItemId()` result. -/
inductive Mutation where
  | add (newId : Str) (title : Str)
  | update (itemId : Str) (updates : ItemUpdates)
  | delete (itemId : Str)
  | reorder (items : List TodoItem)
deriving DecidableEq

/-- The updated list built by the mutation handlers (`ListView.tsx`,
lines 252-308); `now` stands for `Date.now()`. -/
def applyMutation (list : SupportList) (m : Mutation) (now : Int) : SupportList :=
  match m with
  | .add newId title =>
      { list with
          items := list.items ++
            [{ id := newId, title := title, status := Status.pending
               order := (list.items.length : Int) }]
          updatedAt := now }
  | .update itemId updates =>
      { list with
          items := list.items.map fun item =>
            if item.id == itemId then applyUpdates item updates else item
          updatedAt := now }
  | .delete itemId =>
      { list with
          items := list.items.filter fun item => item.id != itemId
          updatedAt := now }
  | .reorder items => { list with items := items, updatedAt := now }

/-- Which signing key the handler passes to `saveList`: only
`handleUpdateItem` passes `useGuestKey = !isOwner`; the other handlers
use the default `false`. -/
def mutationUsesGuestKey (isOwner : Bool) : Mutation → Bool
  | .update _ _ => !isOwner
  | _ => false

/-- A mutation handler end to end (`ListView.tsx`, lines 252-308):
guard on a loaded list, build the updated list, then `saveList`. -/
def handleMutation (C : CryptoPrims) (pubOf : Str → Str)
    (publish : SupportList → Bool) (guestPrivateKey ownerPrivateKey : Option Str)
    (guestPubkey : Option Str) (isOwner : Bool) (state : Option SupportList)
    (m : Mutation) (now : Int) : Option SupportList × Option String :=
  match state with
  | none => (none, none)
  | some list =>
      saveList C pubOf publish guestPrivateKey ownerPrivateKey guestPubkey
        (some list) (applyMutation list m now) (mutationUsesGuestKey isOwner m)

/-- Modelled from the spec's words, for comparison with the merge loop:
the first non-empty value of field `f` for the item `ownerId`
encountered while scanning the `(timestamp, items)` pairs newest to
oldest; `none` when no version carries a non-empty value. -/
def firstTruthyField (f : TodoItem → Option Str) (ownerId : Str) :
    List (Int × List TodoItem) → Option Str
  | [] => none
  | ev :: rest =>
    match (ev.2).find? (fun ei => ei.id == ownerId) with
    | none => firstTruthyField f ownerId rest
    | some eventItem =>
        if jsTruthy (f eventItem) then f eventItem
        else firstTruthyField f ownerId rest

/-- `v`, unless `v` is `none`, in which case the default `d`. -/
def orDefault (v d : Option Str) : Option Str :=
  match v with
  | some s => some s
  | none => d

/-! Concrete instances used to evaluate the pipeline and to witness the
hypotheses of the theorems below. -/

/-- Primitives on which every cryptographic operation throws; used where
the crypto is irrelevant (plaintext pipelines) or must fail. -/
def failingCryptoPrims : CryptoPrims :=
  { getConversationKey := fun _ _ => none
    enc := fun _ _ => none
    dec := fun _ _ => none
    stringifyPayload := fun p => p.title
    parsePayload := fun _ => none }

/-- A toy instance of the primitives on which the pointwise correctness
hypotheses of the round-trip theorem hold at the concrete inputs used by
the witnesses: the conversation key is sender key concatenated with
recipient key, the cipher appends the key, and the payload codec stores
the title and restores the fixed note used by the witness item. -/
def okCryptoPrims : CryptoPrims :=
  { getConversationKey := fun sk pk => some (sk ++ pk)
    enc := fun plain key => some (plain ++ key)
    dec := fun cipher key => some (cipher.take (cipher.length - key.length))
    stringifyPayload := fun p => p.title
    parsePayload := fun s => some { title := s, note := some ['x'], claimedBy := none } }

/-- A plaintext item used by the round-trip and envelope witnesses. -/
def exPlainItem : TodoItem :=
  { id := ['a'], title := ['t'], status := Status.pending, note := some ['x']
    claimedBy := none, order := 0 }

/-- A legacy plaintext item with every optional field populated. -/
def exLegacyItem : TodoItem :=
  { id := ['a'], title := ['t'], status := Status.claimed
    claimedBy := some ['b'], note := some ['n'], order := 2
    encrypted := some true }

/-- An item already carrying the ciphertext marker. -/
def exMarkedItem : TodoItem :=
  { id := ['m'], title := ENCRYPTED_PREFIX ++ ['q'], status := Status.pending
    order := 1 }

/-- A marked item that also carries plaintext note and claimedBy. -/
def exEncItemWithNote : TodoItem :=
  { id := ['a'], title := ENCRYPTED_PREFIX ++ ['z'], status := Status.pending
    note := some ['h','i'], claimedBy := some ['b'], order := 0 }

/-- Item `a` with status `complete`, as in the newest owner snapshot. -/
def itemAComplete : TodoItem :=
  { id := ['a'], title := ['t'], status := Status.complete, order := 0 }

/-- Item `a` with status `claimed`, as in the older guest snapshot. -/
def itemAClaimed : TodoItem :=
  { id := ['a'], title := ['t'], status := Status.claimed, order := 0 }

/-- The newest owner event: signer `o`, timestamp 100, item `a`
`complete`. -/
def ownerEventComplete : NostrEvent :=
  { pubkey := ['o'], created_at := 100
    content := some
      { title := some ['L'], items := some [itemAComplete]
        ownerPubkey := some ['o'], guestPubkey := some ['g']
        createdAt := 1, updatedAt := 100 } }

/-- The older guest event: signer `g`, timestamp 50, item `a`
`claimed`. -/
def guestEventClaimed : NostrEvent :=
  { pubkey := ['g'], created_at := 50
    content := some
      { title := some ['L'], items := some [itemAClaimed]
        ownerPubkey := some ['o'], guestPubkey := some ['g']
        createdAt := 1, updatedAt := 50 } }

/-- Item `a` as stored by the owner: plaintext, note `old`. -/
def itemANoteOld : TodoItem :=
  { id := ['a'], title := ['t'], status := Status.pending
    note := some ['o','l','d'], order := 0 }

/-- Item `a` as stored by the guest: plaintext, note `new`. -/
def itemANoteNew : TodoItem :=
  { id := ['a'], title := ['t'], status := Status.pending
    note := some ['n','e','w'], order := 0 }

/-- The owner event carrying note `old`, timestamp 100. -/
def ownerEventNoteOld : NostrEvent :=
  { pubkey := ['o'], created_at := 100
    content := some
      { title := some ['L'], items := some [itemANoteOld]
        ownerPubkey := some ['o'], guestPubkey := some ['g']
        createdAt := 1, updatedAt := 100 } }

/-- The newer guest event carrying note `new`, timestamp 200. -/
def guestEventNoteNew : NostrEvent :=
  { pubkey := ['g'], created_at := 200
    content := some
      { title := some ['L'], items := some [itemANoteNew]
        ownerPubkey := some ['o'], guestPubkey := some ['g']
        createdAt := 1, updatedAt := 200 } }

/-- A loaded list used by the publish-pipeline witness. -/
def exList : SupportList :=
  { id := LIST_D_TAG, title := ['L'], items := [exLegacyItem]
    ownerPubkey := ['o'], guestPubkey := ['g'], createdAt := 1, updatedAt := 2 }

/-! Helper lemmas shared by the claim theorems. -/

theorem isPrefixOf_append_self (p s : Str) : p.isPrefixOf (p ++ s) = true := by
  induction p with
  | nil => simp [List.isPrefixOf]
  | cons a as ih => simp [List.isPrefixOf, ih]

theorem mem_insertDesc (a e : NostrEvent) (l : List NostrEvent) :
    a ∈ insertDesc e l ↔ a = e ∨ a ∈ l := by
  induction l with
  | nil => simp [insertDesc]
  | cons f rest ih =>
      by_cases h : f.created_at > e.created_at
      all_goals simp [insertDesc, h, ih]
      all_goals tauto

theorem mem_sortByCreatedAtDesc (a : NostrEvent) (l : List NostrEvent) :
    a ∈ sortByCreatedAtDesc l ↔ a ∈ l := by
  induction l with
  | nil => simp [sortByCreatedAtDesc]
  | cons e rest ih => simp [sortByCreatedAtDesc, mem_insertDesc, ih]

theorem foldl_mergeStep_note (events : List (Int × List TodoItem)) (i : Str)
    (s : Status) (n c : Option Str) :
    (events.foldl (mergeStep i) (s, n, c)).2.1 =
      (if jsTruthy n then n
       else orDefault (firstTruthyField (fun x => x.note) i events) n) := by
  induction events generalizing s n c with
  | nil =>
      by_cases h : jsTruthy n = true <;> simp [firstTruthyField, orDefault, h]
  | cons ev rest ih =>
      rw [List.foldl_cons]
      cases hfind : (ev.2).find? (fun ei => ei.id == i) with
      | none =>
          rw [show mergeStep i (s, n, c) ev = (s, n, c) by
                simp [mergeStep, hfind]]
          rw [ih]
          simp [firstTruthyField, hfind]
      | some eventItem =>
          by_cases hn : jsTruthy n = true
          · rw [show mergeStep i (s, n, c) ev =
                  ( if eventItem.status ≠ Status.pending then eventItem.status else s
                  , n
                  , if !jsTruthy c && jsTruthy eventItem.claimedBy then
                      eventItem.claimedBy
                    else c ) by simp [mergeStep, hfind, hn]]
            rw [ih]
            simp [hn]
          · by_cases hev : jsTruthy eventItem.note = true
            · rw [show mergeStep i (s, n, c) ev =
                    ( if eventItem.status ≠ Status.pending then eventItem.status else s
                    , eventItem.note
                    , if !jsTruthy c && jsTruthy eventItem.claimedBy then
                        eventItem.claimedBy
                      else c ) by simp [mergeStep, hfind, hn, hev]]
              rw [ih]
              simp [firstTruthyField, hfind, hn, hev, orDefault]
              cases hnote : eventItem.note with
              | none => rw [hnote] at hev; simp [jsTruthy] at hev
              | some sv => simp
            · rw [show mergeStep i (s, n, c) ev =
                    ( if eventItem.status ≠ Status.pending then eventItem.status else s
                    , n
                    , if !jsTruthy c && jsTruthy eventItem.claimedBy then
                        eventItem.claimedBy
                      else c ) by simp [mergeStep, hfind, hn, hev]]
              rw [ih]
              simp [firstTruthyField, hfind, hn, hev]

theorem foldl_mergeStep_claimedBy (events : List (Int × List TodoItem)) (i : Str)
    (s : Status) (n c : Option Str) :
    (events.foldl (mergeStep i) (s, n, c)).2.2 =
      (if jsTruthy c then c
       else orDefault (firstTruthyField (fun x => x.claimedBy) i events) c) := by
  induction events generalizing s n c with
  | nil =>
      by_cases h : jsTruthy c = true <;> simp [firstTruthyField, orDefault, h]
  | cons ev rest ih =>
      rw [List.foldl_cons]
      cases hfind : (ev.2).find? (fun ei => ei.id == i) with
      | none =>
          rw [show mergeStep i (s, n, c) ev = (s, n, c) by
                simp [mergeStep, hfind]]
          rw [ih]
          simp [firstTruthyField, hfind]
      | some eventItem =>
          by_cases hc : jsTruthy c = true
          · rw [show mergeStep i (s, n, c) ev =
                  ( if eventItem.status ≠ Status.pending then eventItem.status else s
                  , if !jsTruthy n && jsTruthy eventItem.note then eventItem.note
                    else n
                  , c ) by simp [mergeStep, hfind, hc]]
            rw [ih]
            simp [hc]
          · by_cases hev : jsTruthy eventItem.claimedBy = true
            · rw [show mergeStep i (s, n, c) ev =
                    ( if eventItem.status ≠ Status.pending then eventItem.status else s
                    , if !jsTruthy n && jsTruthy eventItem.note then eventItem.note
                      else n
                    , eventItem.claimedBy ) by simp [mergeStep, hfind, hc, hev]]
              rw [ih]
              simp [firstTruthyField, hfind, hc, hev, orDefault]
              cases hcb : eventItem.claimedBy with
              | none => rw [hcb] at hev; simp [jsTruthy] at hev
              | some sv => simp
            · rw [show mergeStep i (s, n, c) ev =
                    ( if eventItem.status ≠ Status.pending then eventItem.status else s
                    , if !jsTruthy n && jsTruthy eventItem.note then eventItem.note
                      else n
                    , c ) by simp [mergeStep, hfind, hc, hev]]
              rw [ih]
              simp [firstTruthyField, hfind, hc, hev]

/-! The claim theorems. -/

/-- Claim C1.  The claim says the merge takes the FIRST non-`pending`
status encountered scanning all events' versions newest to oldest, and
that with status `complete` in the newest owner snapshot and `claimed`
in an older guest snapshot the merged status is `complete`.  The code
disagrees: the merge loop overwrites `bestStatus` with EVERY
non-`pending` status it scans, so the oldest one wins.  Running the
reconciliation pipeline on exactly the claimed scenario (owner event at
timestamp 100 with item `a` `complete`, guest event at timestamp 50
with item `a` `claimed`) yields `claimed`, not `complete`. -/
theorem claim1_status_merge_oldest_nonpending_wins :
    (loadList failingCryptoPrims none
        [ownerEventComplete, guestEventClaimed]).toOption.map
      (fun l => l.items.map TodoItem.status) = some [Status.claimed] := by
  decide

/-- Claim C2 counterexample.  The authoritative owner item carries the
non-empty note `old` (owner event at timestamp 100); a NEWER guest
event (timestamp 200) carries the non-empty note `new` for the same
item, so the first non-empty value of the newest-first scan is `new` —
which is what the claim says the merge must return, the owner value
being only a default.  The pipeline instead returns `old`: the owner
item's own value is seeded before the scan and wins whenever it is
non-empty. -/
theorem claim2_counterexample :
    (loadList failingCryptoPrims none
        [ownerEventNoteOld, guestEventNoteNew]).toOption.map
        (fun l => l.items.map TodoItem.note) = some [some ['o','l','d']] ∧
    firstTruthyField (fun x => x.note) ['a']
        [(200, [itemANoteNew]), (100, [itemANoteOld])] = some ['n','e','w'] ∧
    (['o','l','d'] : Str) ≠ ['n','e','w'] := by
  decide

/-- Claim C2, amended.  The merge keeps the authoritative owner item's
own stored `note`/`claimedBy` whenever it is non-empty; only when that
value is empty or absent does the first non-empty value of the
newest-first scan apply, the owner value remaining the default when the
scan finds none. -/
theorem claim2_merge_note_claimedBy_owner_first
    (events : List (Int × List TodoItem)) (o : TodoItem) :
    (mergeItem events o).note =
      (if jsTruthy o.note then o.note
       else orDefault (firstTruthyField (fun x => x.note) o.id events) o.note) ∧
    (mergeItem events o).claimedBy =
      (if jsTruthy o.claimedBy then o.claimedBy
       else orDefault (firstTruthyField (fun x => x.claimedBy) o.id events)
         o.claimedBy) := by
  constructor
  · show (events.foldl (mergeStep o.id) (o.status, o.note, o.claimedBy)).2.1 = _
    exact foldl_mergeStep_note events o.id o.status o.note o.claimedBy
  · show (events.foldl (mergeStep o.id) (o.status, o.note, o.claimedBy)).2.2 = _
    exact foldl_mergeStep_claimedBy events o.id o.status o.note o.claimedBy

/-- Claim C3.  For an item without the ciphertext marker, decrypting the
encryption with the correctly paired counterpart key restores `title`,
`note` and `claimedBy` exactly and yields `encrypted = true`.  Correct
pairing and functioning primitives are expressed pointwise: both
derivations agree on one conversation key, decryption inverts the
produced ciphertext, and the payload codec round-trips on this
payload. -/
theorem claim3_encrypt_decrypt_roundtrip (C : CryptoPrims) (item : TodoItem)
    (skA skB pkA pkB ck ct : Str)
    (hplain : ENCRYPTED_PREFIX.isPrefixOf item.title = false)
    (hckA : C.getConversationKey skA pkB = some ck)
    (hckB : C.getConversationKey skB pkA = some ck)
    (henc : C.enc (C.stringifyPayload
        { title := item.title, note := item.note, claimedBy := item.claimedBy })
      ck = some ct)
    (hdec : C.dec ct ck = some (C.stringifyPayload
        { title := item.title, note := item.note, claimedBy := item.claimedBy }))
    (hparse : C.parsePayload (C.stringifyPayload
        { title := item.title, note := item.note, claimedBy := item.claimedBy }) =
      some { title := item.title, note := item.note, claimedBy := item.claimedBy }) :
    (decryptItemData C (encryptItemData C item skA pkB) skB pkA).title = item.title ∧
    (decryptItemData C (encryptItemData C item skA pkB) skB pkA).note = item.note ∧
    (decryptItemData C (encryptItemData C item skA pkB) skB pkA).claimedBy =
      item.claimedBy ∧
    (decryptItemData C (encryptItemData C item skA pkB) skB pkA).encrypted =
      some true := by
  have he : encryptItemData C item skA pkB =
      { id := item.id, title := ENCRYPTED_PREFIX ++ ct, status := item.status
        order := item.order, claimedBy := none, note := none
        encrypted := some true } := by
    simp [encryptItemData, hplain, encryptAttempt, hckA, henc]
  rw [he]
  simp [decryptItemData, isPrefixOf_append_self, decryptAttempt, hckB,
    List.drop_left, hdec, hparse]

/-- Claim C3 witness: the round trip at a concrete item and a concrete
instance of the primitives. -/
theorem claim3_witness :
    ENCRYPTED_PREFIX.isPrefixOf exPlainItem.title = false ∧
    ((decryptItemData okCryptoPrims
        (encryptItemData okCryptoPrims exPlainItem ['k'] ['k']) ['k'] ['k']).title =
      exPlainItem.title ∧
     (decryptItemData okCryptoPrims
        (encryptItemData okCryptoPrims exPlainItem ['k'] ['k']) ['k'] ['k']).note =
      exPlainItem.note ∧
     (decryptItemData okCryptoPrims
        (encryptItemData okCryptoPrims exPlainItem ['k'] ['k']) ['k'] ['k']).claimedBy =
      exPlainItem.claimedBy ∧
     (decryptItemData okCryptoPrims
        (encryptItemData okCryptoPrims exPlainItem ['k'] ['k']) ['k'] ['k']).encrypted =
      some true) :=
  ⟨by decide,
   claim3_encrypt_decrypt_roundtrip okCryptoPrims exPlainItem
     ['k'] ['k'] ['k'] ['k'] ['k','k'] ['t','k','k']
     (by decide) (by decide) (by decide) (by decide) (by decide) (by decide)⟩

/-- Claim C4.  `encryptItemData` returns an item whose title already
carries the ciphertext marker unchanged, and consequently it is
idempotent for every item and every keys: on success the produced title
carries the marker, and on failure the fail-open result re-encrypts to
the same failure result because the primitives are deterministic. -/
theorem claim4_encrypt_idempotent (C : CryptoPrims) (item : TodoItem)
    (sk pk : Str) :
    (ENCRYPTED_PREFIX.isPrefixOf item.title = true →
      encryptItemData C item sk pk = item) ∧
    encryptItemData C (encryptItemData C item sk pk) sk pk =
      encryptItemData C item sk pk := by
  have h1 : ∀ it : TodoItem, ENCRYPTED_PREFIX.isPrefixOf it.title = true →
      encryptItemData C it sk pk = it := by
    intro it h
    simp [encryptItemData, h]
  refine ⟨h1 item, ?_⟩
  by_cases h : ENCRYPTED_PREFIX.isPrefixOf item.title = true
  · rw [h1 item h]
    exact h1 item h
  · have h' : ENCRYPTED_PREFIX.isPrefixOf item.title = false := by
      cases hb : ENCRYPTED_PREFIX.isPrefixOf item.title
      · rfl
      · exact absurd hb h
    cases hA : encryptAttempt C
        { title := item.title, note := item.note, claimedBy := item.claimedBy }
        sk pk with
    | some ct =>
        have he : encryptItemData C item sk pk =
            { id := item.id, title := ENCRYPTED_PREFIX ++ ct, status := item.status
              order := item.order, claimedBy := none, note := none
              encrypted := some true } := by
          simp [encryptItemData, h', hA]
        rw [he]
        exact h1 _ (isPrefixOf_append_self ENCRYPTED_PREFIX ct)
    | none =>
        have he : encryptItemData C item sk pk =
            { item with encrypted := some false } := by
          simp [encryptItemData, h', hA]
        rw [he]
        simp [encryptItemData, h', hA]

/-- Claim C4 witness: the marked item is returned unchanged and the
double encryption coincides with the single one at a concrete input. -/
theorem claim4_witness :
    ENCRYPTED_PREFIX.isPrefixOf exMarkedItem.title = true ∧
    encryptItemData okCryptoPrims exMarkedItem ['k'] ['k'] = exMarkedItem ∧
    encryptItemData okCryptoPrims
        (encryptItemData okCryptoPrims exMarkedItem ['k'] ['k']) ['k'] ['k'] =
      encryptItemData okCryptoPrims exMarkedItem ['k'] ['k'] :=
  ⟨by decide,
   (claim4_encrypt_idempotent okCryptoPrims exMarkedItem ['k'] ['k']).1 (by decide),
   (claim4_encrypt_idempotent okCryptoPrims exMarkedItem ['k'] ['k']).2⟩

/-- Claim C5.  If no fetched event is an owner event — no event parses
to a snapshot whose declared (or defaulted) `ownerPubkey` equals the
event's signer — then `loadList` reports the not-found error, no matter
how many guest-signed events are present. -/
theorem claim5_no_owner_event_not_found (C : CryptoPrims) (gk : Option Str)
    (events : List NostrEvent) (h : ∀ e ∈ events, isOwnerEvent e = false) :
    loadList C gk events = Except.error notFoundError := by
  by_cases hlen : events.length = 0
  · simp [loadList, hlen]
  · have hfilter : (sortByCreatedAtDesc events).filter isOwnerEvent = [] := by
      apply List.filter_eq_nil_iff.mpr
      intro a ha
      simp [h a ((mem_sortByCreatedAtDesc a events).mp ha)]
    simp [loadList, hlen, hfilter]

/-- Claim C5 witness: a single valid guest-signed event (signer `g`,
declared owner `o`) yields the not-found error. -/
theorem claim5_witness :
    (∀ e ∈ [guestEventClaimed], isOwnerEvent e = false) ∧
    loadList failingCryptoPrims none [guestEventClaimed] =
      Except.error notFoundError :=
  ⟨by decide,
   claim5_no_owner_event_not_found failingCryptoPrims none [guestEventClaimed]
     (by decide)⟩

/-- Claim C6 counterexample.  The claim says a failed decryption leaves
`note` and `claimedBy` absent.  The code spreads the input item and
replaces only `title`, so a marked item that carries a plaintext `note`
on the wire keeps it: decryption fails (the placeholder title is
installed) yet `note` is still `hi` and `claimedBy` still `b`. -/
theorem claim6_counterexample :
    (decryptItemData failingCryptoPrims exEncItemWithNote ['k'] ['p']).title =
      decryptFailedTitle ∧
    (decryptItemData failingCryptoPrims exEncItemWithNote ['k'] ['p']).note =
      some ['h','i'] ∧
    (decryptItemData failingCryptoPrims exEncItemWithNote ['k'] ['p']).claimedBy =
      some ['b'] := by
  decide

/-- Claim C6, amended.  For a marked item whose decryption attempt
fails, `decryptItemData` returns the item with `title` replaced by the
fixed placeholder and every other field unchanged (for items produced
by `encryptItemData` the `note`/`claimedBy` on the wire are absent, so
they stay absent); being a total function, it never throws. -/
theorem claim6_decrypt_failure_placeholder (C : CryptoPrims) (item : TodoItem)
    (sk pk : Str)
    (hmark : ENCRYPTED_PREFIX.isPrefixOf item.title = true)
    (hfail : decryptAttempt C (item.title.drop ENCRYPTED_PREFIX.length) sk pk =
      none) :
    decryptItemData C item sk pk = { item with title := decryptFailedTitle } := by
  simp [decryptItemData, hmark, hfail]

/-- Claim C6 witness: the amended behaviour at a concrete marked item
and always-failing primitives. -/
theorem claim6_witness :
    ENCRYPTED_PREFIX.isPrefixOf exEncItemWithNote.title = true ∧
    decryptAttempt failingCryptoPrims
        (exEncItemWithNote.title.drop ENCRYPTED_PREFIX.length) ['k'] ['p'] =
      none ∧
    decryptItemData failingCryptoPrims exEncItemWithNote ['k'] ['p'] =
      { exEncItemWithNote with title := decryptFailedTitle } :=
  ⟨by decide, by decide,
   claim6_decrypt_failure_placeholder failingCryptoPrims exEncItemWithNote
     ['k'] ['p'] (by decide) (by decide)⟩

/-- Claim C7.  An item whose title lacks the ciphertext marker passes
through `decryptItemData` with `encrypted = false` and every other
field unchanged. -/
theorem claim7_legacy_passthrough (C : CryptoPrims) (item : TodoItem)
    (sk pk : Str) (h : ENCRYPTED_PREFIX.isPrefixOf item.title = false) :
    decryptItemData C item sk pk = { item with encrypted := some false } := by
  simp [decryptItemData, h]

/-- Claim C7 witness: the passthrough at a concrete legacy item with
every optional field populated. -/
theorem claim7_witness :
    ENCRYPTED_PREFIX.isPrefixOf exLegacyItem.title = false ∧
    decryptItemData failingCryptoPrims exLegacyItem ['k'] ['p'] =
      { exLegacyItem with encrypted := some false } :=
  ⟨by decide,
   claim7_legacy_passthrough failingCryptoPrims exLegacyItem ['k'] ['p']
     (by decide)⟩

/-- Claim C8.  A successful encryption of an unmarked item returns the
marker followed by the ciphertext as title, clears `note` and
`claimedBy`, sets `encrypted = true`, and keeps `status`, `order` and
`id` unchanged. -/
theorem claim8_encrypt_success_shape (C : CryptoPrims) (item : TodoItem)
    (sk pk ct : Str)
    (h : ENCRYPTED_PREFIX.isPrefixOf item.title = false)
    (hok : encryptAttempt C
        { title := item.title, note := item.note, claimedBy := item.claimedBy }
      sk pk = some ct) :
    encryptItemData C item sk pk =
      { id := item.id, title := ENCRYPTED_PREFIX ++ ct, status := item.status
        order := item.order, claimedBy := none, note := none
        encrypted := some true } := by
  simp [encryptItemData, h, hok]

/-- Claim C8 witness: the success shape at a concrete item and the toy
primitives. -/
theorem claim8_witness :
    ENCRYPTED_PREFIX.isPrefixOf exPlainItem.title = false ∧
    encryptAttempt okCryptoPrims
        { title := exPlainItem.title, note := exPlainItem.note
          claimedBy := exPlainItem.claimedBy } ['k'] ['k'] = some ['t','k','k'] ∧
    encryptItemData okCryptoPrims exPlainItem ['k'] ['k'] =
      { id := exPlainItem.id, title := ENCRYPTED_PREFIX ++ ['t','k','k']
        status := exPlainItem.status, order := exPlainItem.order
        claimedBy := none, note := none, encrypted := some true } :=
  ⟨by decide, by decide,
   claim8_encrypt_success_shape okCryptoPrims exPlainItem ['k'] ['k'] ['t','k','k']
     (by decide) (by decide)⟩

/-- Claim C9.  When the encryption attempt fails, `encryptItemData`
fails open: the original item is returned with every field intact and
`encrypted = false`; being a total function, it never throws, so a save
is never blocked.  (A failure can only occur on an unmarked title,
since a marked item is returned before any cryptography runs.) -/
theorem claim9_encrypt_fail_open (C : CryptoPrims) (item : TodoItem)
    (sk pk : Str)
    (h : ENCRYPTED_PREFIX.isPrefixOf item.title = false)
    (hfail : encryptAttempt C
        { title := item.title, note := item.note, claimedBy := item.claimedBy }
      sk pk = none) :
    encryptItemData C item sk pk = { item with encrypted := some false } := by
  simp [encryptItemData, h, hfail]

/-- Claim C9 witness: the fail-open result at a concrete item and
always-failing primitives. -/
theorem claim9_witness :
    ENCRYPTED_PREFIX.isPrefixOf exPlainItem.title = false ∧
    encryptAttempt failingCryptoPrims
        { title := exPlainItem.title, note := exPlainItem.note
          claimedBy := exPlainItem.claimedBy } ['k'] ['p'] = none ∧
    encryptItemData failingCryptoPrims exPlainItem ['k'] ['p'] =
      { exPlainItem with encrypted := some false } :=
  ⟨by decide, by decide,
   claim9_encrypt_fail_open failingCryptoPrims exPlainItem ['k'] ['p']
     (by decide) (by decide)⟩

/-- Claim C10.  For every mutation, the in-memory state is updated to
the new value only after the publish of this operation's own outgoing
snapshot succeeds.  First conjunct: if that one publish — of the
`listToSave` this call builds — returns `false` while the operation's
preconditions hold (a loaded list, the actor's signing key, a guest
pubkey, a non-empty owner pubkey), then the save error is reported and
the state keeps its previous value.  Second conjunct: whenever the
state changed at all, the publish of this operation's outgoing snapshot
returned `true` and the new state is exactly the post-save value — no
partial or phantom intermediate state exists. -/
theorem claim10_mutation_publish_atomic (C : CryptoPrims) (pubOf : Str → Str)
    (publish : SupportList → Bool) (gKey oKey gPub : Option Str) (isOwner : Bool)
    (state : Option SupportList) (m : Mutation) (now : Int) :
    (∀ list pk, state = some list →
      (if mutationUsesGuestKey isOwner m then gKey else oKey) = some pk →
      gPub.isSome = true →
      (applyMutation list m now).ownerPubkey.isEmpty = false →
      publish (listToSave C pk
          (recipientOf pubOf pk (applyMutation list m now))
          (applyMutation list m now)) = false →
      handleMutation C pubOf publish gKey oKey gPub isOwner state m now =
        (state, some saveFailedError)) ∧
    ((handleMutation C pubOf publish gKey oKey gPub isOwner state m now).1 ≠
        state →
      ∃ list pk, state = some list ∧
        (if mutationUsesGuestKey isOwner m then gKey else oKey) = some pk ∧
        publish (listToSave C pk
            (recipientOf pubOf pk (applyMutation list m now))
            (applyMutation list m now)) = true ∧
        (handleMutation C pubOf publish gKey oKey gPub isOwner state m now).1 =
          some (stateAfterSave C pk
            (recipientOf pubOf pk (applyMutation list m now))
            (applyMutation list m now))) := by
  constructor
  · intro list pk hstate hpk hgp howner hpub
    subst hstate
    cases gPub with
    | none => simp at hgp
    | some gpv => simp [handleMutation, saveList, hpk, howner, hpub]
  · intro hne
    cases state with
    | none => exact absurd rfl hne
    | some list =>
        cases hk : (if mutationUsesGuestKey isOwner m then gKey else oKey) with
        | none => exact absurd (by simp [handleMutation, saveList, hk]) hne
        | some pk =>
            cases gPub with
            | none => exact absurd (by simp [handleMutation, saveList, hk]) hne
            | some gpv =>
                by_cases ho : (applyMutation list m now).ownerPubkey.isEmpty
                · exact absurd (by simp [handleMutation, saveList, hk, ho]) hne
                · cases hp : publish (listToSave C pk
                      (recipientOf pubOf pk (applyMutation list m now))
                      (applyMutation list m now)) with
                  | false =>
                      exact absurd
                        (by simp [handleMutation, saveList, hk, ho, hp]) hne
                  | true =>
                      exact ⟨list, pk, rfl, rfl, hp,
                        by simp [handleMutation, saveList, hk, ho, hp]⟩

/-- Claim C10 witness: a delete whose own publish is refused by the
transport leaves the state at the previous list and reports the save
error. -/
theorem claim10_witness :
    ((if mutationUsesGuestKey true (Mutation.delete ['a']) then some ['g']
      else some ['k']) = some (['k'] : Str)) ∧
    (applyMutation exList (Mutation.delete ['a']) 3).ownerPubkey.isEmpty = false ∧
    handleMutation failingCryptoPrims (fun s => s) (fun _ => false) (some ['g'])
        (some ['k']) (some ['g']) true (some exList) (Mutation.delete ['a']) 3 =
      (some exList, some saveFailedError) :=
  ⟨rfl, by decide,
   (claim10_mutation_publish_atomic failingCryptoPrims (fun s => s) (fun _ => false)
      (some ['g']) (some ['k']) (some ['g']) true (some exList)
      (Mutation.delete ['a']) 3).1 exList ['k'] rfl rfl rfl (by decide) rfl⟩
